import Mathlib

/-
  Verification development for the door43-catalog-job-handler webhook module
  (src/webhook.py).  The Python code is shallowly embedded: JSON payload
  values become the inductive type JVal, Python dictionary subscripting and
  other fallible operations return Except PyExn, and the stateful pieces
  (metric emission, the retry loop of the fetcher, the job wrapper) are
  modelled as pure functions that return the list of emitted metric events
  together with the final outcome.
-/

namespace Door43

/-- JSON value as decoded by Python json.loads; JVal.null doubles as the
Python None object (json.loads maps JSON null to None). -/
inductive JVal where
  | null : JVal
  | bool : Bool → JVal
  | num : Int → JVal
  | str : String → JVal
  | arr : List JVal → JVal
  | obj : List (String × JVal) → JVal
deriving Repr

/-- Python exceptions that the embedded fragments of webhook.py can raise. -/
inductive PyExn where
  | keyError : String → PyExn
  | typeError : PyExn
  | indexError : PyExn
  | attributeError : PyExn
  | nameError : String → PyExn
deriving Repr, DecidableEq

/-- Python structural equality restricted to JSON-decoded values.  The only
comparisons performed by webhook.py compare None and strings, where this
agrees with Python ==. -/
def JVal.pyEq : JVal → JVal → Bool
  | .null, .null => true
  | .bool b₁, .bool b₂ => b₁ == b₂
  | .num n₁, .num n₂ => n₁ == n₂
  | .str s₁, .str s₂ => s₁ == s₂
  | .arr xs, .arr ys => pyEqList xs ys
  | .obj xs, .obj ys => pyEqObj xs ys
  | _, _ => false
where
  pyEqList : List JVal → List JVal → Bool
    | [], [] => true
    | x :: xs, y :: ys => pyEq x y && pyEqList xs ys
    | _, _ => false
  pyEqObj : List (String × JVal) → List (String × JVal) → Bool
    | [], [] => true
    | (k₁, v₁) :: xs, (k₂, v₂) :: ys => k₁ == k₂ && pyEq v₁ v₂ && pyEqObj xs ys
    | _, _ => false

/-- Python truthiness of a JSON-decoded value. -/
def JVal.truthy : JVal → Bool
  | .null => false
  | .bool b => b
  | .num n => n != 0
  | .str s => s != ""
  | .arr xs => !xs.isEmpty
  | .obj xs => !xs.isEmpty

/-- Python subscripting v[k] with a string key: a dict lookup raising
KeyError when the key is absent; subscripting any non-dict JSON value with a
string key raises TypeError. -/
def JVal.getItem : JVal → String → Except PyExn JVal
  | .obj fields, k =>
      match fields.lookup k with
      | some v => .ok v
      | none => .error (.keyError k)
  | _, _ => .error .typeError

/-- Python subscripting v[i] with an integer index, as used on the commits
list: list indexing raises IndexError when out of range; indexing a string
yields the one-character string; anything else raises TypeError. -/
def JVal.index : JVal → Nat → Except PyExn JVal
  | .arr xs, i =>
      match xs.drop i with
      | x :: _ => .ok x
      | [] => .error .indexError
  | .str s, i =>
      match s.data.drop i with
      | c :: _ => .ok (.str (String.mk [c]))
      | [] => .error .indexError
  | _, _ => .error .typeError

/-- Python len() on a JSON-decoded value; TypeError on null, bool and num. -/
def JVal.pyLen : JVal → Except PyExn Nat
  | .arr xs => .ok xs.length
  | .str s => .ok s.length
  | .obj xs => .ok xs.length
  | _ => .error .typeError

/-- Containment of a pattern as a contiguous sublist, used to model the
Python substring test. -/
def listContainsSub (pat : List Char) : List Char → Bool
  | [] => pat.isEmpty
  | c :: rest => pat.isPrefixOf (c :: rest) || listContainsSub pat rest

/-- Python membership test (k in v) for a string k: key test on a dict,
substring test on a string, element test on a list, TypeError otherwise. -/
def JVal.pyContains : JVal → String → Except PyExn Bool
  | .obj fields, k => .ok (fields.any (fun f => f.1 == k))
  | .str s, k => .ok (listContainsSub k.data s.data)
  | .arr xs, k => .ok (xs.any (fun x => x.pyEq (.str k)))
  | _, _ => .error .typeError

/-- Predicate used to model Python attribute access on strings: only str
values carry the encode and split methods. -/
def JVal.isStr : JVal → Bool
  | .str _ => true
  | _ => false

/-- Rendering of a value inside a Python f-string (str()).  Container
renderings are abbreviated; no theorem below depends on them, since every
claim that inspects a formatted string does so on plain string fields. -/
def JVal.pyStr : JVal → String
  | .null => "None"
  | .bool true => "True"
  | .bool false => "False"
  | .num n => toString n
  | .str s => s
  | .arr _ => "[…]"
  | .obj _ => "{…}"

/-- Helper for pyReplace: replaces every non-overlapping occurrence of the
nonempty pattern o :: os by new, scanning left to right, as Python
str.replace does.  The skip counter consumes the tail of a matched
occurrence, which keeps the recursion structural on the scanned list. -/
def pyReplaceAux (o : Char) (os new : List Char) : Nat → List Char → List Char
  | _, [] => []
  | Nat.succ k, _ :: rest => pyReplaceAux o os new k rest
  | 0, c :: rest =>
      if (o :: os).isPrefixOf (c :: rest) then
        new ++ pyReplaceAux o os new os.length rest
      else
        c :: pyReplaceAux o os new 0 rest

/-- Python str.replace(old, new): every non-overlapping occurrence of old is
replaced by new, scanning left to right.  For the empty pattern Python
interleaves new between all characters, which we reproduce for completeness
although webhook.py only ever replaces nonempty patterns. -/
def pyReplace (s old new : String) : String :=
  match old.data with
  | [] => String.mk (new.data ++ s.data.flatMap (fun c => c :: new.data))
  | o :: os => String.mk (pyReplaceAux o os new.data 0 s.data)

/-- Helper for pySplit: splits a character list at every occurrence of the
separator, keeping empty segments, as Python str.split with an explicit
separator does. -/
def pySplitList (sep : Char) : List Char → List (List Char)
  | [] => [[]]
  | c :: rest =>
      if c == sep then [] :: pySplitList sep rest
      else
        match pySplitList sep rest with
        | g :: gs => (c :: g) :: gs
        | [] => [[c]]

/-- Python str.split(sep) for a one-character separator, as used with the
slash separator on commit URLs; the empty string splits to one empty
segment. -/
def pySplit (s : String) (sep : Char) : List String :=
  (pySplitList sep s.data).map String.mk

/-- Python str.lower() restricted to the ASCII range handled by
Char.toLower, which covers the repository names the source lowercases. -/
def pyLower (s : String) : String :=
  String.mk (s.data.map Char.toLower)

/-- Python str.endswith(suffix). -/
def pyEndsWith (s suffix : String) : Bool :=
  suffix.data.isSuffixOf s.data

/-- Python s.encode(ascii, replace).decode(utf-8): every non-ASCII character
becomes a question mark (webhook.py line 317). -/
def asciiReplace (s : String) : String :=
  String.mk (s.data.map (fun c => if c.toNat < 128 then c else '?'))

/-! ## Resilient archive fetcher (webhook.py, download_and_unzip_repo) -/

/-- Derivation of the zip URL from the commit URL (webhook.py lines
109-110): if the commit URL already ends in .zip it is used as is, otherwise
every occurrence of the substring commit is replaced by archive and .zip is
appended. -/
def deriveRepoZipUrl (commitUrl : String) : String :=
  if pyEndsWith commitUrl ".zip" then commitUrl
  else pyReplace commitUrl "commit" "archive" ++ ".zip"

/-- Outcome of one download-and-unzip attempt, abstracting the two exception
classes caught by the retry loop. -/
inductive AttemptOutcome where
  | success : AttemptOutcome
  | httpError : AttemptOutcome
  | badZipFile : AttemptOutcome
deriving Repr, DecidableEq

/-- Error raised by the retry loop on exhaustion: either the re-raised
HTTPError, or a fresh BadZipFile carrying the try count in its message. -/
inductive FetchErr where
  | httpErr : FetchErr
  | badZip : Nat → FetchErr
deriving Repr, DecidableEq

/-- Trace of one run of the retry loop: the number of the last attempt made
(attempts are numbered from 1), the sleeps taken between attempts in
seconds, and the final result. -/
structure FetchRun where
  attempts : Nat
  sleeps : List Nat
  result : Except FetchErr Unit
deriving Repr

def MAX_TRIES : Nat := 4
def SECONDS_BETWEEN_TRIES : Nat := 5

/-- Retry loop of download_and_unzip_repo (webhook.py lines 116-154).  The
attempt source abstracts the network: src n is the outcome of the attempt
numbered n.  On HTTPError the loop retries while the try number is below
MAX_TRIES - 1, sleeping SECONDS_BETWEEN_TRIES - 1 seconds; on BadZipFile it
retries while the try number is below MAX_TRIES, sleeping
SECONDS_BETWEEN_TRIES seconds; otherwise it raises. -/
def downloadLoop (src : Nat → AttemptOutcome) (tryNumber : Nat) : FetchRun :=
  match src tryNumber with
  | .success => ⟨tryNumber, [], .ok ()⟩
  | .httpError =>
      if hlt : tryNumber < MAX_TRIES - 1 then
        let rest := downloadLoop src (tryNumber + 1)
        ⟨rest.attempts, (SECONDS_BETWEEN_TRIES - 1) :: rest.sleeps, rest.result⟩
      else ⟨tryNumber, [], .error .httpErr⟩
  | .badZipFile =>
      if hlt : tryNumber < MAX_TRIES then
        let rest := downloadLoop src (tryNumber + 1)
        ⟨rest.attempts, SECONDS_BETWEEN_TRIES :: rest.sleeps, rest.result⟩
      else ⟨tryNumber, [], .error (.badZip tryNumber)⟩
termination_by MAX_TRIES - tryNumber
decreasing_by
  · simp only [MAX_TRIES] at *
    omega
  · simp only [MAX_TRIES] at *
    omega

/-- Entry point of the retry loop: attempts start at try number 1. -/
def downloadAndUnzipRepo (src : Nat → AttemptOutcome) : FetchRun :=
  downloadLoop src 1

/-! ## Post-extraction folder selection
(webhook.py, download_repos_files_into_temp_folder, lines 168-189) -/

/-- Selection of the repository folder after a successful extraction.  The
directory listing of the extraction root is given as pairs of entry name and
an is-directory flag (the source asserts every entry is a directory or a
file).  If a subdirectory named by the lowercased repository name exists it
is returned; otherwise, if exactly one subdirectory exists it is returned;
otherwise the extraction root itself is returned.  The function is total:
the naming mismatch never raises. -/
def selectRepoFolder (tempFolderpath repoName : String)
    (entries : List (String × Bool)) : String :=
  let expectedName := pyLower repoName
  if entries.any (fun e => e.1 == expectedName && e.2) then
    tempFolderpath ++ "/" ++ expectedName
  else
    let possibleFolderpaths :=
      (entries.filter (fun e => e.2)).map (fun e => tempFolderpath ++ "/" ++ e.1)
    match possibleFolderpaths with
    | [d] => d
    | _ => tempFolderpath

/-! ## Metric events and stats names (webhook.py module level) -/

/-- Metric event sent to the statsd client.  The set events omit the
recorded value, which no claim inspects. -/
inductive MetricEvent where
  | set : String → MetricEvent
  | incr : String → MetricEvent
  | gauge : String → Int → MetricEvent
  | timing : String → Int → MetricEvent
deriving Repr, DecidableEq

/-- Stats name components with the production environment setting (the
rq_settings value used as the environment marker is the empty string). -/
def door43StatsBase : String := "door43-catalog.prod"

def jobHandlerStatsBase : String := door43StatsBase ++ ".job-handler"

def webhookStatsBase : String := jobHandlerStatsBase ++ ".webhook"

def attemptedCounterName : String := webhookStatsBase ++ ".jobs.attempted"

def completedCounterName : String := webhookStatsBase ++ ".jobs.completed"

def durationTimingName : String := webhookStatsBase ++ ".job.duration"

/-- Name of the queue-length gauge; the source f-string carries a stray
double quote before the stats base (webhook.py line 357). -/
def queueLengthGaugeName : String :=
  "\"" ++ door43StatsBase ++ ".enqueue-job.webhook.queue.length.current"

def projectTypesInvokedName : String := jobHandlerStatsBase ++ ".types.invoked.unknown"

def usersInvokedBase : String := webhookStatsBase ++ ".users.invoked."

/-! ## Duplicate-event detector
(webhook.py, check_for_forthcoming_pushes_in_queue, lines 193-221) -/

/-- Projection of one entry of the pending-job queue: its rq status and the
single payload dictionary it was enqueued with (the source asserts that the
args tuple of every queued job has length one). -/
structure QueuedJob where
  status : String
  payload : JVal
deriving Repr

/-- Scan step for one queued job (webhook.py lines 207-219): ok (some d)
when the job is a queued single-commit push whose commit URL shares the
first six slash-separated segments with myBits, where d is that URL with
every occurrence of https:// removed; ok none when the job does not match;
error when reading the queued payload raises. -/
def scanStep (myBits : List String) (qj : QueuedJob) : Except PyExn (Option String) :=
  if qj.status == "queued" then
    match qj.payload.getItem "DCS_event" with
    | .error e => .error e
    | .ok ev =>
      if ev.pyEq (.str "push") then
        match qj.payload.getItem "commits" with
        | .error e => .error e
        | .ok commits =>
          match commits.pyLen with
          | .error e => .error e
          | .ok n =>
            if n == 1 then
              match commits.index 0 with
              | .error e => .error e
              | .ok c0 =>
                match c0.getItem "url" with
                | .error e => .error e
                | .ok u =>
                  match u with
                  | .str urlStr =>
                      if (pySplit urlStr '/').take 6 == myBits.take 6 then
                        .ok (some (pyReplace urlStr "https://" ""))
                      else .ok none
                  | _ => .error .attributeError
            else .ok none
      else .ok none
  else .ok none

/-- Scan of the pending queue in queue order; the first matching entry
wins. -/
def scanQueue (myBits : List String) : List QueuedJob → Except PyExn (Bool × Option String)
  | [] => .ok (false, none)
  | qj :: rest =>
      match scanStep myBits qj with
      | .error e => .error e
      | .ok (some d) => .ok (true, some d)
      | .ok none => scanQueue myBits rest

/-- check_for_forthcoming_pushes_in_queue (webhook.py lines 193-221).  The
narrowing condition short-circuits like the Python and: the commits field is
read only for push events, and the queue is scanned only when the payload is
a single-commit push and the queue is nonempty. -/
def checkForthcomingPushesInQueue (payload : JVal) (queue : List QueuedJob) :
    Except PyExn (Bool × Option String) :=
  match payload.getItem "DCS_event" with
  | .error e => .error e
  | .ok ev =>
    if ev.pyEq (.str "push") then
      match payload.getItem "commits" with
      | .error e => .error e
      | .ok commits =>
        match commits.pyLen with
        | .error e => .error e
        | .ok n =>
          if n == 1 && queue.length != 0 then
            match commits.index 0 with
            | .error e => .error e
            | .ok c0 =>
              match c0.getItem "url" with
              | .error e => .error e
              | .ok u =>
                match u with
                | .str urlStr => scanQueue (pySplit urlStr '/') queue
                | _ => .error .attributeError
          else .ok (false, none)
    else .ok (false, none)

/-! ## Commit identity resolver (webhook.py, process_webhook_job) -/

/-- Single quote character, used in the identifier strings that the source
builds with f-strings. -/
def sq : String := String.mk [Char.ofNat 39]

/-- Result of one successful run of process_webhook_job: the classified
commit type and id, the archive URL, the attribution values, and the
returned descriptive name; handledRelease records whether the downstream
action handle_catalog_release was invoked. -/
structure ProcResult where
  commitType : String
  commitId : JVal
  repoDataUrl : JVal
  pusherUsername : JVal
  ownerUsername : String
  jobName : String
  handledRelease : Bool
deriving Repr

/-- Classification of the commit identity (webhook.py lines 298-309): a
default-branch match first, then a truthy tag name, then a named branch,
else unknown with commit id None. -/
def classifyCommit (commitBranch defaultBranch tagName : JVal) : String × JVal :=
  if commitBranch.pyEq defaultBranch then ("defaultBranch", commitBranch)
  else if tagName.truthy then ("tag", tagName)
  else if !(commitBranch.pyEq .null || commitBranch.pyEq (.str "UnknownCommitBranch")
            || commitBranch.pyEq (.str "NoCommitBranch")) then ("branch", commitBranch)
  else ("unknown", .null)

/-- Default-branch extraction (webhook.py lines 264-268): a KeyError from
either subscript is caught and replaced by the sentinel NoDefaultBranch;
any other exception propagates. -/
def getDefaultBranch (payload : JVal) : Except PyExn JVal :=
  match (payload.getItem "repository").bind (fun r => r.getItem "default_branch") with
  | .ok v => .ok v
  | .error (.keyError _) => .ok (.str "NoDefaultBranch")
  | .error e => .error e

/-- Tag-name extraction (webhook.py lines 278-285): KeyError degrades to
NoTagName, IndexError and AttributeError degrade to UnknownTagName, and any
other exception (in particular the TypeError raised by subscripting a
non-dict release value) propagates. -/
def getTagName (payload : JVal) : Except PyExn JVal :=
  match (payload.getItem "release").bind (fun r => r.getItem "tag_name") with
  | .ok v => .ok v
  | .error (.keyError _) => .ok (.str "NoTagName")
  | .error .indexError => .ok (.str "UnknownTagName")
  | .error .attributeError => .ok (.str "UnknownTagName")
  | .error e => .error e

/-- Locals bound by the release branch (webhook.py lines 277-294). -/
structure ReleaseLocals where
  tagName : JVal
  repoDataUrl : JVal
  pusherUsername : JVal
  ourIdentifier : String
deriving Repr

/-- Release-branch extraction (webhook.py lines 277-294), in statement
order: tag name with its sentinels, then the unguarded reads of zipball_url
and name, then the author dictionary falling back to the sentinel actor
test, then the username read on the author dictionary. -/
def extractReleaseLocals (payload : JVal) (repoOwnerUsername repoName : JVal) :
    Except PyExn ReleaseLocals :=
  match getTagName payload with
  | .error e => .error e
  | .ok tagName =>
    match (payload.getItem "release").bind (fun r => r.getItem "zipball_url") with
    | .error e => .error e
    | .ok repoDataUrl =>
      match (payload.getItem "release").bind (fun r => r.getItem "name") with
      | .error e => .error e
      | .ok _actionMessage =>
        match payload.getItem "release" with
        | .error e => .error e
        | .ok rel =>
          match rel.pyContains "author" with
          | .error e => .error e
          | .ok hasAuthor =>
            match (if hasAuthor then rel.getItem "author"
                   else .ok (.obj [("username", .str "test")])) with
            | .error e => .error e
            | .ok pusherDict =>
              match pusherDict.getItem "username" with
              | .error e => .error e
              | .ok pusherUsername =>
                .ok { tagName := tagName, repoDataUrl := repoDataUrl,
                      pusherUsername := pusherUsername,
                      ourIdentifier := sq ++ pusherUsername.pyStr ++ sq ++ " releasing " ++ sq
                        ++ repoOwnerUsername.pyStr ++ "/" ++ repoName.pyStr ++ sq }

/-- Body of process_webhook_job (webhook.py lines 246-328) as a fallible
pure function, in statement order.  The locals commit_branch, commit_hash,
repo_data_url and tag_name start as None, and the removed push branch means
commit_branch stays None on every path; the reference to the local variable
our_identifier on line 315 raises NameError (UnboundLocalError) when the
event kind is not release, because only the release branch binds it. -/
def processCore (payload : JVal) : Except PyExn ProcResult :=
  match getDefaultBranch payload with
  | .error e => .error e
  | .ok defaultBranch =>
    match (payload.getItem "repository").bind
        (fun r => (r.getItem "owner").bind (fun o => o.getItem "username")) with
    | .error e => .error e
    | .ok repoOwnerUsername =>
      match (payload.getItem "repository").bind (fun r => r.getItem "name") with
      | .error e => .error e
      | .ok repoName =>
        match payload.getItem "DCS_event" with
        | .error e => .error e
        | .ok dcsEvent =>
          let commitBranch : JVal := .null
          match (if dcsEvent.pyEq (.str "release")
                 then (extractReleaseLocals payload repoOwnerUsername repoName).map some
                 else .ok none) with
          | .error e => .error e
          | .ok rl =>
            let tagName : JVal := match rl with | some l => l.tagName | none => .null
            let repoDataUrl : JVal := match rl with | some l => l.repoDataUrl | none => .null
            let cls := classifyCommit commitBranch defaultBranch tagName
            -- line 310: the string concatenation around a commit id that is
            -- neither None nor a str raises TypeError
            if cls.2.pyEq .null || cls.2.isStr then
              match rl with
              | none => .error (.nameError "our_identifier")
              | some l =>
                -- line 317: the encode method exists only on str values
                match repoOwnerUsername with
                | .str ownerStr =>
                    .ok { commitType := cls.1, commitId := cls.2,
                          repoDataUrl := repoDataUrl,
                          pusherUsername := l.pusherUsername,
                          ownerUsername := ownerStr,
                          jobName := l.ourIdentifier,
                          handledRelease := cls.2.truthy }
                | _ => .error .attributeError
            else .error .typeError

/-- Stats set events recorded at the start of process_webhook_job
(webhook.py lines 250-261); their fallback values are irrelevant to every
claim, so only the metric names are recorded. -/
def statsSetEvents : List MetricEvent :=
  [.set (webhookStatsBase ++ ".repo_ids"),
   .set (webhookStatsBase ++ ".owner_ids"),
   .set (webhookStatsBase ++ ".pusher_ids")]

/-- process_webhook_job with its metric trace: the three set events are
always recorded; the per-user invoked counter (line 319) is recorded
exactly on the runs that return normally, since every statement that can
raise precedes line 319 and nothing after line 319 raises. -/
def processWebhookJob (payload : JVal) : List MetricEvent × Except PyExn ProcResult :=
  match processCore payload with
  | .ok r =>
      (statsSetEvents ++ [.incr (usersInvokedBase ++ asciiReplace r.ownerUsername)], .ok r)
  | .error e => (statsSetEvents, .error e)

/-! ## Job lifecycle wrapper (webhook.py, job, lines 332-404) -/

/-- Trace of one invocation of the job wrapper: the metric events in
emission order, whether process_webhook_job was entered, and the outcome
(ok with the descriptive name in hand, or the re-raised exception). -/
structure JobRun where
  events : List MetricEvent
  processed : Bool
  outcome : Except PyExn (Option String)
deriving Repr

/-- Entry point job() for one dequeued payload, with the pending-queue
snapshot and the measured elapsed milliseconds supplied as parameters.  The
attempted counter is recorded first; the queue-length gauge is emitted only
on the non-abort path; the failure path emits the failed gauge and
re-raises before the timing metric and the completed counter are reached. -/
def jobRun (payload : JVal) (queue : List QueuedJob) (elapsedMs : Int) : JobRun :=
  let ev0 : List MetricEvent := [.incr attemptedCounterName]
  -- line 344: membership test on the payload dictionary
  match payload.pyContains "echoed_from_production" with
  | .error e => ⟨ev0, false, .error e⟩
  | .ok _ =>
    match checkForthcomingPushesInQueue payload queue with
    | .error e => ⟨ev0, false, .error e⟩
    | .ok (abortDuplicateFlag, detectorName) =>
      if abortDuplicateFlag then
        ⟨ev0 ++ [.timing durationTimingName elapsedMs, .incr completedCounterName],
         false, .ok detectorName⟩
      else
        let g : MetricEvent := .gauge queueLengthGaugeName queue.length
        match processWebhookJob payload with
        | (procEvents, .ok r) =>
            ⟨ev0 ++ g :: procEvents
               ++ [.timing durationTimingName elapsedMs, .incr completedCounterName],
             true, .ok (some r.jobName)⟩
        | (procEvents, .error e) =>
            ⟨ev0 ++ g :: procEvents ++ [.gauge projectTypesInvokedName 1],
             true, .error e⟩

/-! ## Metric counting helpers -/

/-- Number of incr events carrying exactly the given counter name. -/
def countIncr (n : String) (evs : List MetricEvent) : Nat :=
  (evs.filter (fun e => match e with | .incr m => m == n | _ => false)).length

/-- Number of timing events, of any name. -/
def countTiming (evs : List MetricEvent) : Nat :=
  (evs.filter (fun e => match e with | .timing _ _ => true | _ => false)).length

/-- Number of gauge events, of any name. -/
def countGauge (evs : List MetricEvent) : Nat :=
  (evs.filter (fun e => match e with | .gauge _ _ => true | _ => false)).length

/-! ## Specification-side definitions for the duplicate-detection claim -/

/-- Specification-side reading, following the claim wording, of a payload
that is a single-commit push carrying a string commit URL; it yields that
URL.  This definition is deliberately written from the claim, to be
compared with the translated scanStep. -/
def specSingleCommitPushUrl (p : JVal) : Option String :=
  match p.getItem "DCS_event", p.getItem "commits" with
  | .ok ev, .ok (.arr [c]) =>
      if ev.pyEq (.str "push") then
        match c.getItem "url" with
        | .ok (.str u) => some u
        | _ => none
      else none
  | _, _ => none

/-- Specification-side matcher following the claim: a queued job that is a
single-commit push whose commit URL shares the first six slash-delimited
segments with the current URL segments; the produced descriptive label is
the URL with the https scheme text removed. -/
def specMatchLabel (myBits : List String) (qj : QueuedJob) : Option String :=
  if qj.status == "queued" then
    match specSingleCommitPushUrl qj.payload with
    | some u =>
        if (pySplit u '/').take 6 == myBits.take 6 then some (pyReplace u "https://" "")
        else none
    | none => none
  else none

/-- Label of the first matching queued job in queue order. -/
def firstMatchLabel (myBits : List String) (queue : List QueuedJob) : Option String :=
  queue.findSome? (specMatchLabel myBits)

/-! ## Concrete payloads used by individual claims -/

/-- Push payload that is well formed for the Gitea push shape; the handler
does not support push events. -/
def c1PushPayload : JVal := .obj [
  ("DCS_event", .str "push"),
  ("repository", .obj [("default_branch", .str "master"),
    ("owner", .obj [("username", .str "bob")]), ("name", .str "proj")]),
  ("commits", .arr [.obj [("url", .str "https://h/o/r/commit/123")]])]

/-- Fork payload, another event kind outside the supported set. -/
def c3FailingPayload : JVal := .obj [
  ("DCS_event", .str "fork"),
  ("repository", .obj [("default_branch", .str "main"),
    ("owner", .obj [("username", .str "eve")]), ("name", .str "repo1")])]

/-- Well-formed release payload used to witness the success path. -/
def c3WitnessPayload : JVal := .obj [
  ("DCS_event", .str "release"),
  ("repository", .obj [("default_branch", .str "master"),
    ("owner", .obj [("username", .str "carol")]), ("name", .str "book")]),
  ("release", .obj [("tag_name", .str "v2"), ("zipball_url", .str "https://host/b.zip"),
    ("name", .str "Second"), ("author", .obj [("username", .str "carol")])])]

/-- Release payload whose repository carries a JSON-null default branch. -/
def c4NullDefaultBranchPayload : JVal := .obj [
  ("DCS_event", .str "release"),
  ("repository", .obj [("default_branch", .null),
    ("owner", .obj [("username", .str "bob")]), ("name", .str "proj")]),
  ("release", .obj [("tag_name", .str "v1.0"), ("zipball_url", .str "https://host/x.zip"),
    ("name", .str "First"), ("author", .obj [("username", .str "alice")])])]

/-- Well-formed release payload matching the end-to-end example of the
specification. -/
def c4WitnessPayload : JVal := .obj [
  ("DCS_event", .str "release"),
  ("repository", .obj [("default_branch", .str "master"),
    ("owner", .obj [("username", .str "bob")]), ("name", .str "proj")]),
  ("release", .obj [("tag_name", .str "v1.0"), ("zipball_url", .str "https://host/x.zip"),
    ("name", .str "First release"), ("author", .obj [("username", .str "alice")])])]

/-- Resolved identity of c4WitnessPayload. -/
def c4WitnessResult : ProcResult :=
  { commitType := "tag", commitId := .str "v1.0",
    repoDataUrl := .str "https://host/x.zip", pusherUsername := .str "alice",
    ownerUsername := "bob",
    jobName := sq ++ "alice" ++ sq ++ " releasing " ++ sq ++ "bob/proj" ++ sq,
    handledRelease := true }

/-- Release payload whose release object lacks the zipball_url field. -/
def c5MissingZipballPayload : JVal := .obj [
  ("DCS_event", .str "release"),
  ("repository", .obj [("default_branch", .str "master"),
    ("owner", .obj [("username", .str "bob")]), ("name", .str "proj")]),
  ("release", .obj [("tag_name", .str "v1.0"), ("name", .str "First")])]

/-- Release payload builder with a release object that carries zipball_url
and name but neither tag_name nor author. -/
def mkReleaseNoTagNoAuthor (owner repo db zip nm : String) : JVal := .obj [
  ("DCS_event", .str "release"),
  ("repository", .obj [("default_branch", .str db),
    ("owner", .obj [("username", .str owner)]), ("name", .str repo)]),
  ("release", .obj [("zipball_url", .str zip), ("name", .str nm)])]

/-- Single-commit push payload for the duplicate-abort scenario. -/
def c6AbortPayload : JVal := .obj [
  ("DCS_event", .str "push"),
  ("commits", .arr [.obj [("url", .str "https://h6/o/r/commit/123")]])]

/-- Queued single-commit push on the same repository path. -/
def c6QueuedPayload : JVal := .obj [
  ("DCS_event", .str "push"),
  ("commits", .arr [.obj [("url", .str "https://h6/o/r/commit/999")]])]

/-- Single-commit push payload for the duplicate-abort witness. -/
def c6WitnessPayload : JVal := .obj [
  ("DCS_event", .str "push"),
  ("commits", .arr [.obj [("url", .str "https://h6w/o/r/commit/123")]])]

/-- Queued single-commit push matching c6WitnessPayload. -/
def c6WitnessQueued : JVal := .obj [
  ("DCS_event", .str "push"),
  ("commits", .arr [.obj [("url", .str "https://h6w/o/r/commit/999")]])]

/-- Single-commit push payload for the detector witness. -/
def c7WitnessPayload : JVal := .obj [
  ("DCS_event", .str "push"),
  ("commits", .arr [.obj [("url", .str "https://h7/o/r/commit/123")]])]

/-- Queued single-commit push matching c7WitnessPayload. -/
def c7WitnessQueued : JVal := .obj [
  ("DCS_event", .str "push"),
  ("commits", .arr [.obj [("url", .str "https://h7/o/r/commit/999")]])]

/-! ## Helper lemmas -/

/-- The per-user invoked counter name never collides with the completed
counter name, whatever the sanitized username is. -/
theorem usersInvoked_ne_completed (x : String) :
    usersInvokedBase ++ x ≠ completedCounterName := by
  intro h
  have hlen := congrArg String.length h
  rw [String.length_append] at hlen
  rw [show usersInvokedBase.length = 54 from rfl,
      show completedCounterName.length = 54 from rfl] at hlen
  have hxe : x = "" := by
    cases x with
    | mk data =>
      cases data with
      | nil => rfl
      | cons c cs => simp [String.length] at hlen
  subst hxe
  rw [show usersInvokedBase ++ "" = usersInvokedBase from rfl] at h
  exact absurd h (by decide)

/-- Boolean form of usersInvoked_ne_completed. -/
theorem usersInvoked_beq_completed (x : String) :
    ((usersInvokedBase ++ x) == completedCounterName) = false :=
  beq_eq_false_iff_ne.mpr (usersInvoked_ne_completed x)

/-- The attempted counter name differs from the completed counter name. -/
theorem attempted_beq_completed :
    (attemptedCounterName == completedCounterName) = false := by decide

/-- Outcome component of processWebhookJob is exactly processCore. -/
theorem processWebhookJob_snd (p : JVal) : (processWebhookJob p).2 = processCore p := by
  unfold processWebhookJob
  cases processCore p <;> rfl

/-- Truthy values are not the None value. -/
theorem truthy_ne_null (v : JVal) (h : v.truthy = true) : v ≠ .null := by
  intro he
  subst he
  simp [JVal.truthy] at h

/-- Every successful resolver run classifies through classifyCommit with a
None commit branch. -/
theorem processCore_ok_shape (payload : JVal) (r : ProcResult)
    (h : processCore payload = .ok r) :
    ∃ db tn, r.commitType = (classifyCommit .null db tn).1
      ∧ r.commitId = (classifyCommit .null db tn).2 := by
  unfold processCore at h
  simp only [] at h
  repeat' split at h
  all_goals first
    | exact Except.noConfusion h
    | (injection h with h2; subst h2; exact ⟨_, _, rfl, rfl⟩)

/-- Behaviour of the classification chain when the commit branch is None:
unknown carries a None id, a tag carries its truthy tag name, a
default-branch match carries the None branch, and the branch case is
unreachable. -/
theorem classify_null_cases (db tn : JVal) :
    ((classifyCommit .null db tn).1 = "unknown" → (classifyCommit .null db tn).2 = .null)
    ∧ ((classifyCommit .null db tn).1 = "tag" → (classifyCommit .null db tn).2 ≠ .null)
    ∧ ((classifyCommit .null db tn).1 = "defaultBranch" → (classifyCommit .null db tn).2 = .null)
    ∧ (classifyCommit .null db tn).1 ≠ "branch" := by
  unfold classifyCommit
  split_ifs with h1 h2 h3
  · exact ⟨by simp, by simp, fun _ => rfl, by simp⟩
  · exact ⟨by simp, fun _ => truthy_ne_null tn h2, by simp, by simp⟩
  · simp [JVal.pyEq] at h3
  · exact ⟨fun _ => rfl, by simp, by simp, by simp⟩

/-- The four possible traces of one wrapper invocation: an exception before
the detector, the duplicate-abort completion, the processed completion, and
the failure path that re-raises after the failed gauge. -/
theorem jobRun_shape (payload : JVal) (queue : List QueuedJob) (ms : Int) :
    (∃ e, jobRun payload queue ms = ⟨[.incr attemptedCounterName], false, .error e⟩)
    ∨ (∃ nm, jobRun payload queue ms =
        ⟨[.incr attemptedCounterName, .timing durationTimingName ms,
          .incr completedCounterName], false, .ok nm⟩)
    ∨ (∃ r, processCore payload = .ok r ∧ jobRun payload queue ms =
        ⟨[.incr attemptedCounterName] ++ .gauge queueLengthGaugeName queue.length ::
          (statsSetEvents ++ [.incr (usersInvokedBase ++ asciiReplace r.ownerUsername)])
          ++ [.timing durationTimingName ms, .incr completedCounterName],
         true, .ok (some r.jobName)⟩)
    ∨ (∃ e, jobRun payload queue ms =
        ⟨[.incr attemptedCounterName] ++ .gauge queueLengthGaugeName queue.length ::
          statsSetEvents ++ [.gauge projectTypesInvokedName 1],
         true, .error e⟩) := by
  rcases hpc : payload.pyContains "echoed_from_production" with e | b
  · exact Or.inl ⟨e, by unfold jobRun; rw [hpc]⟩
  rcases hck : checkForthcomingPushesInQueue payload queue with e | pair
  · exact Or.inl ⟨e, by unfold jobRun; rw [hpc, hck]⟩
  obtain ⟨flag, nm⟩ := pair
  cases flag
  case mk.true =>
    exact Or.inr (Or.inl ⟨nm, by unfold jobRun; rw [hpc, hck]; rfl⟩)
  case mk.false =>
    rcases hproc : processCore payload with e | r
    · refine Or.inr (Or.inr (Or.inr ⟨e, ?_⟩))
      unfold jobRun processWebhookJob
      rw [hpc, hck, hproc]
      rfl
    · refine Or.inr (Or.inr (Or.inl ⟨r, rfl, ?_⟩))
      unfold jobRun processWebhookJob
      rw [hpc, hck, hproc]
      rfl

/-- A detector run that returns a value implies the payload is a
dictionary, so the membership test of the wrapper cannot raise. -/
theorem check_ok_contains (payload : JVal) (queue : List QueuedJob) (x : Bool × Option String)
    (h : checkForthcomingPushesInQueue payload queue = .ok x) :
    ∃ b, payload.pyContains "echoed_from_production" = .ok b := by
  cases payload
  case obj fields => exact ⟨_, rfl⟩
  all_goals simp [checkForthcomingPushesInQueue, JVal.getItem] at h

/-- A commits value of Python length one that survives integer indexing and
a url read on the element must be a one-element list. -/
theorem commits_shape (cv u : JVal) (url : JVal)
    (hlen : cv.pyLen = .ok 1) (hidx : cv.index 0 = .ok u)
    (hurl : u.getItem "url" = .ok url) : cv = .arr [u] := by
  cases cv
  case arr xs =>
    rcases xs with _ | ⟨a, _ | ⟨b, t⟩⟩
    · simp [JVal.pyLen] at hlen
    · simp [JVal.index] at hidx
      rw [hidx]
    · simp [JVal.pyLen] at hlen
  case str s =>
    rcases hd : s.data with _ | ⟨c, cs⟩
    · simp [JVal.index, hd] at hidx
    · simp [JVal.index, hd] at hidx
      rw [← hidx] at hurl
      simp [JVal.getItem] at hurl
  case obj fields =>
    simp [JVal.index] at hidx
  all_goals simp [JVal.pyLen] at hlen

/-- A payload whose event kind is not push never yields a spec-side URL. -/
theorem spec_none_not_push (p ev : JVal)
    (heqev : p.getItem "DCS_event" = .ok ev)
    (hpush : ev.pyEq (.str "push") = false) :
    specSingleCommitPushUrl p = none := by
  unfold specSingleCommitPushUrl
  rw [heqev]
  rcases hcm : p.getItem "commits" with e | cv
  · rfl
  · rcases cv with _ | b | n | s | xs | fields
    case arr =>
      rcases xs with _ | ⟨c, _ | ⟨c2, t⟩⟩
      · rfl
      · simp [hpush]
      · rfl
    all_goals rfl

/-- A payload whose commits value has Python length other than one never
yields a spec-side URL. -/
theorem spec_none_len (p ev cv : JVal) (n : Nat)
    (heqev : p.getItem "DCS_event" = .ok ev)
    (hcm : p.getItem "commits" = .ok cv)
    (hlen : cv.pyLen = .ok n) (hn : n ≠ 1) :
    specSingleCommitPushUrl p = none := by
  unfold specSingleCommitPushUrl
  rw [heqev, hcm]
  rcases cv with _ | b | m | s | xs | fields
  case arr =>
    rcases xs with _ | ⟨c, _ | ⟨c2, t⟩⟩
    · rfl
    · simp [JVal.pyLen] at hlen
      omega
    · rfl
  all_goals rfl

/-- A single-commit push with a string URL yields that URL on the spec
side. -/
theorem spec_some_url (p ev c : JVal) (u : String)
    (heqev : p.getItem "DCS_event" = .ok ev)
    (hpush : ev.pyEq (.str "push") = true)
    (hcm : p.getItem "commits" = .ok (.arr [c]))
    (hurl : c.getItem "url" = .ok (.str u)) :
    specSingleCommitPushUrl p = some u := by
  unfold specSingleCommitPushUrl
  rw [heqev, hcm]
  simp [hpush, hurl]

/-- Agreement of the translated scan step with the spec-side matcher on
every queued job it can read without raising. -/
theorem scanStep_ok_agree (myBits : List String) (qj : QueuedJob) (v : Option String)
    (h : scanStep myBits qj = .ok v) : v = specMatchLabel myBits qj := by
  unfold scanStep at h
  split at h
  case isFalse hst =>
    cases h
    simp [specMatchLabel, hst]
  case isTrue hst =>
    split at h
    case h_1 e heqev => exact Except.noConfusion h
    case h_2 ev heqev =>
      split at h
      case isFalse hpush =>
        cases h
        rw [specMatchLabel, if_pos hst,
            spec_none_not_push qj.payload ev heqev (by simpa using hpush)]
      case isTrue hpush =>
        split at h
        case h_1 e heqcm => exact Except.noConfusion h
        case h_2 cv heqcm =>
          split at h
          case h_1 e heqlen => exact Except.noConfusion h
          case h_2 n heqlen =>
            split at h
            case isFalse hn =>
              cases h
              rw [specMatchLabel, if_pos hst,
                  spec_none_len qj.payload ev cv n heqev heqcm heqlen (by simpa using hn)]
            case isTrue hn =>
              split at h
              case h_1 e heqidx => exact Except.noConfusion h
              case h_2 c0 heqidx =>
                split at h
                case h_1 e hequrl => exact Except.noConfusion h
                case h_2 uv hequrl =>
                  split at h
                  case h_2 => exact Except.noConfusion h
                  case h_1 urlStr =>
                    have hn1 : n = 1 := by simpa using hn
                    subst hn1
                    have hshape : cv = .arr [c0] :=
                      commits_shape cv c0 (.str urlStr) heqlen heqidx hequrl
                    subst hshape
                    have hspec : specSingleCommitPushUrl qj.payload = some urlStr :=
                      spec_some_url qj.payload ev c0 urlStr heqev hpush heqcm hequrl
                    split at h
                    case isTrue htake =>
                      cases h
                      rw [specMatchLabel, if_pos hst, hspec]
                      simp [htake]
                    case isFalse htake =>
                      cases h
                      rw [specMatchLabel, if_pos hst, hspec]
                      simp [htake]

/-- The queue scan returns the label of the first spec-side match, provided
every queued entry can be read without raising. -/
theorem scanQueue_spec (myBits : List String) (queue : List QueuedJob)
    (hok : ∀ qj ∈ queue, ∃ v, scanStep myBits qj = .ok v) :
    scanQueue myBits queue =
      .ok (match firstMatchLabel myBits queue with
           | some d => (true, some d)
           | none => (false, none)) := by
  induction queue with
  | nil => rfl
  | cons qj rest ih =>
    obtain ⟨v, hv⟩ := hok qj (by simp)
    have hagree := scanStep_ok_agree myBits qj v hv
    have hrest : ∀ j ∈ rest, ∃ v2, scanStep myBits j = .ok v2 :=
      fun j hj => hok j (by simp [hj])
    unfold scanQueue
    rw [hv, hagree]
    unfold firstMatchLabel
    rw [List.findSome?_cons]
    cases hsp : specMatchLabel myBits qj with
    | some d => rfl
    | none => simpa [firstMatchLabel] using ih hrest

/-! ## Claim theorems -/

/-- Claim C1: for an event kind outside the supported set the classifier
does reach kind unknown with id None, but process_webhook_job then raises
NameError at the reference to the unbound local our_identifier (webhook.py
line 315, bound only by the release branch), so the wrapper re-raises
instead of completing normally with a descriptive name, and the completed
counter is never incremented.  This theorem records the failing behaviour
of the code at the failing input. -/
theorem c1_unsupported_event_crashes :
    (processWebhookJob c1PushPayload).2 = .error (.nameError "our_identifier")
    ∧ (jobRun c1PushPayload [] 100).outcome = .error (.nameError "our_identifier")
    ∧ countIncr completedCounterName (jobRun c1PushPayload [] 100).events = 0 :=
  ⟨rfl, rfl, rfl⟩

/-- Claim C2 counterexample: with a source that raises HTTPError on every
attempt, the loop makes 3 attempts, not the 4 the claim states (the guard
on webhook.py line 140 compares against MAX_TRIES - 1). -/
theorem c2_transient_retry_count_counterexample :
    (downloadAndUnzipRepo (fun _ => AttemptOutcome.httpError)).attempts = 3
    ∧ (downloadAndUnzipRepo (fun _ => AttemptOutcome.httpError)).attempts ≠ 4 := by
  have h : downloadAndUnzipRepo (fun _ => AttemptOutcome.httpError)
      = ⟨3, [4, 4], .error .httpErr⟩ := by
    simp [downloadAndUnzipRepo, downloadLoop, MAX_TRIES, SECONDS_BETWEEN_TRIES]
  rw [h]
  exact ⟨rfl, by decide⟩

/-- Claim C2 amended: for a fetch source that raises HTTPError on every
attempt, the loop makes exactly 3 download attempts, sleeps 4 seconds
between consecutive attempts, and re-raises the HTTPError, the transient
network failure class. -/
theorem c2_transient_retry_exhaustion (src : Nat → AttemptOutcome)
    (h : ∀ n, src n = AttemptOutcome.httpError) :
    downloadAndUnzipRepo src = ⟨3, [4, 4], .error .httpErr⟩ := by
  simp [downloadAndUnzipRepo, downloadLoop, h, MAX_TRIES, SECONDS_BETWEEN_TRIES]

/-- Witness for c2_transient_retry_exhaustion at the constant source. -/
theorem c2_transient_retry_exhaustion_witness :
    downloadAndUnzipRepo (fun _ => AttemptOutcome.httpError)
      = ⟨3, [4, 4], .error .httpErr⟩ :=
  c2_transient_retry_exhaustion (fun _ => AttemptOutcome.httpError) (fun _ => rfl)

/-- Claim C3 counterexample: on the unexpected-failure path the wrapper
re-raises before the timing metric and the completed counter are emitted,
so an invocation exists whose trace carries zero completed counters and
zero timing metrics, against the claimed exactly one of each on every exit
path. -/
theorem c3_terminal_metrics_counterexample :
    countIncr completedCounterName (jobRun c3FailingPayload [] 77).events = 0
    ∧ countTiming (jobRun c3FailingPayload [] 77).events = 0
    ∧ (jobRun c3FailingPayload [] 77).outcome = .error (.nameError "our_identifier") :=
  ⟨rfl, rfl, rfl⟩

/-- Claim C3 amended: every invocation that returns normally, through
success or duplicate-abort, emits exactly one completed counter and exactly
one timing metric; every invocation that re-raises emits neither. -/
theorem c3_terminal_metrics (payload : JVal) (queue : List QueuedJob) (ms : Int) :
    (∀ s, (jobRun payload queue ms).outcome = .ok s →
        countIncr completedCounterName (jobRun payload queue ms).events = 1
        ∧ countTiming (jobRun payload queue ms).events = 1)
    ∧ (∀ e, (jobRun payload queue ms).outcome = .error e →
        countIncr completedCounterName (jobRun payload queue ms).events = 0
        ∧ countTiming (jobRun payload queue ms).events = 0) := by
  rcases jobRun_shape payload queue ms with ⟨e, hj⟩ | ⟨nm, hj⟩ | ⟨r, hpr, hj⟩ | ⟨e, hj⟩ <;>
      rw [hj] <;> constructor
  · intro s hs
    exact Except.noConfusion hs
  · intro e2 he
    exact ⟨by simp [countIncr, List.filter, attempted_beq_completed],
           by simp [countTiming, List.filter]⟩
  · intro s hs
    exact ⟨by simp [countIncr, List.filter, attempted_beq_completed],
           by simp [countTiming, List.filter]⟩
  · intro e2 he
    exact Except.noConfusion he
  · intro s hs
    exact ⟨by simp [countIncr, List.filter, statsSetEvents, attempted_beq_completed,
             usersInvoked_beq_completed],
           by simp [countTiming, List.filter, statsSetEvents]⟩
  · intro e2 he
    exact Except.noConfusion he
  · intro s hs
    exact Except.noConfusion hs
  · intro e2 he
    exact ⟨by simp [countIncr, List.filter, statsSetEvents, attempted_beq_completed],
           by simp [countTiming, List.filter, statsSetEvents]⟩

/-- Witness for c3_terminal_metrics on a normal completion. -/
theorem c3_terminal_metrics_witness :
    countIncr completedCounterName (jobRun c3WitnessPayload [] 15).events = 1
    ∧ countTiming (jobRun c3WitnessPayload [] 15).events = 1 :=
  (c3_terminal_metrics c3WitnessPayload [] 15).1 _ rfl

/-- Claim C4 counterexample: a release payload whose repository carries a
JSON-null default branch resolves to kind defaultBranch with id None,
because the None commit branch compares equal to the null default branch
(webhook.py line 298), refuting the claimed equivalence of kind Unknown
and id None. -/
theorem c4_invariant_counterexample :
    ∃ r, (processWebhookJob c4NullDefaultBranchPayload).2 = .ok r
      ∧ r.commitType = "defaultBranch" ∧ r.commitId = .null :=
  ⟨_, rfl, rfl, rfl⟩

/-- Claim C4 amended: on every successful resolution, kind unknown forces
id None and kind tag forces a non-None id; but kind defaultBranch also
forces id None (it arises exactly when the default branch is null, since
the removed push handling leaves the commit branch always None), and kind
branch is unreachable, so the claimed equivalence holds in the
unknown-to-None direction only.  The precedence order of the checks is
default-branch match, then tag, then branch, then unknown, as claimed. -/
theorem c4_classification_invariant (payload : JVal) (r : ProcResult)
    (h : (processWebhookJob payload).2 = .ok r) :
    (r.commitType = "unknown" → r.commitId = .null)
    ∧ (r.commitType = "tag" → r.commitId ≠ .null)
    ∧ (r.commitType = "defaultBranch" → r.commitId = .null)
    ∧ r.commitType ≠ "branch" := by
  rw [processWebhookJob_snd] at h
  obtain ⟨db, tn, h1, h2⟩ := processCore_ok_shape payload r h
  rw [h1, h2]
  exact classify_null_cases db tn

/-- Witness for c4_classification_invariant on the end-to-end release
example. -/
theorem c4_classification_invariant_witness :
    (c4WitnessResult.commitType = "unknown" → c4WitnessResult.commitId = .null)
    ∧ (c4WitnessResult.commitType = "tag" → c4WitnessResult.commitId ≠ .null)
    ∧ (c4WitnessResult.commitType = "defaultBranch" → c4WitnessResult.commitId = .null)
    ∧ c4WitnessResult.commitType ≠ "branch" :=
  c4_classification_invariant c4WitnessPayload c4WitnessResult rfl

/-- Claim C5 counterexample: a release payload without the optional
zipball_url field makes the resolver raise a KeyError that propagates
(webhook.py line 286 reads it unguarded), refuting the claim that the
resolver does not throw when zipball_url is absent. -/
theorem c5_missing_zipball_counterexample :
    (processWebhookJob c5MissingZipballPayload).2 = .error (.keyError "zipball_url") := rfl

/-- Claim C5 amended: for release payloads whose release object is a
dictionary carrying zipball_url and name, a missing tag name degrades to
the sentinel NoTagName and a missing author degrades to the sentinel actor
test, and the resolver completes without raising; but a missing zipball_url
or name raises a KeyError that propagates, and the UnknownTagName sentinel
is reachable only through IndexError or AttributeError, which dictionary
subscripting never raises. -/
theorem c5_sentinel_degradation (owner repo db zip nm : String) :
    ∃ r, (processWebhookJob (mkReleaseNoTagNoAuthor owner repo db zip nm)).2 = .ok r
      ∧ r.commitType = "tag" ∧ r.commitId = .str "NoTagName"
      ∧ r.pusherUsername = .str "test" :=
  ⟨_, rfl, rfl, rfl, rfl⟩

/-- Witness for c5_sentinel_degradation at concrete field values. -/
theorem c5_sentinel_degradation_witness :
    ∃ r, (processWebhookJob (mkReleaseNoTagNoAuthor "bob" "proj" "master"
          "https://host/x.zip" "First")).2 = .ok r
      ∧ r.commitType = "tag" ∧ r.commitId = .str "NoTagName"
      ∧ r.pusherUsername = .str "test" :=
  c5_sentinel_degradation "bob" "proj" "master" "https://host/x.zip" "First"

/-- Claim C6 counterexample: an invocation aborted by the duplicate
detector uses the detector label as its descriptive name but emits no gauge
event at all, refuting the claim that the measured pending-queue length is
recorded as a gauge on the abort path (webhook.py line 357 sits inside the
non-abort branch). -/
theorem c6_abort_gauge_counterexample :
    (jobRun c6AbortPayload [⟨"queued", c6QueuedPayload⟩] 100).outcome
        = .ok (some "h6/o/r/commit/999")
    ∧ countGauge (jobRun c6AbortPayload [⟨"queued", c6QueuedPayload⟩] 100).events = 0 :=
  ⟨rfl, rfl⟩

/-- Claim C6 amended: whenever the detector signals abort, the wrapper
skips processing and uses the detector label as the descriptive name, but
the pending-queue length gauge is not recorded on this path; it is
recorded only on the non-abort path. -/
theorem c6_abort_path (payload : JVal) (queue : List QueuedJob) (ms : Int) (d : Option String)
    (h : checkForthcomingPushesInQueue payload queue = .ok (true, d)) :
    (jobRun payload queue ms).outcome = .ok d
    ∧ (jobRun payload queue ms).processed = false
    ∧ countGauge (jobRun payload queue ms).events = 0 := by
  obtain ⟨b, hb⟩ := check_ok_contains payload queue (true, d) h
  have hj : jobRun payload queue ms =
      ⟨[.incr attemptedCounterName, .timing durationTimingName ms, .incr completedCounterName],
       false, .ok d⟩ := by
    unfold jobRun
    rw [hb, h]
    rfl
  rw [hj]
  exact ⟨rfl, rfl, by simp [countGauge, List.filter]⟩

/-- Witness for c6_abort_path at a concrete duplicate scenario. -/
theorem c6_abort_path_witness :
    (jobRun c6WitnessPayload [⟨"queued", c6WitnessQueued⟩] 50).outcome
        = .ok (some "h6w/o/r/commit/999")
    ∧ (jobRun c6WitnessPayload [⟨"queued", c6WitnessQueued⟩] 50).processed = false
    ∧ countGauge (jobRun c6WitnessPayload [⟨"queued", c6WitnessQueued⟩] 50).events = 0 :=
  c6_abort_path c6WitnessPayload [⟨"queued", c6WitnessQueued⟩] 50
    (some "h6w/o/r/commit/999") rfl

/-- Claim C7: for a single-commit push payload and a pending-queue snapshot
whose queued entries are all readable, if some queued entry is a queued
single-commit push sharing the first six slash-delimited URL segments, the
duplicate check returns true together with the descriptive label of the
first such entry in queue order, the label being that commit URL with the
https scheme text removed. -/
theorem c7_duplicate_push_detection (payload : JVal) (queue : List QueuedJob)
    (c : JVal) (u : String) (d : String)
    (hev : payload.getItem "DCS_event" = .ok (.str "push"))
    (hcm : payload.getItem "commits" = .ok (.arr [c]))
    (hurl : c.getItem "url" = .ok (.str u))
    (hok : ∀ qj ∈ queue, ∃ v, scanStep (pySplit u '/') qj = .ok v)
    (hmatch : firstMatchLabel (pySplit u '/') queue = some d) :
    checkForthcomingPushesInQueue payload queue = .ok (true, some d) := by
  have hlen0 : queue.length ≠ 0 := by
    intro hq
    rw [List.length_eq_zero] at hq
    rw [hq] at hmatch
    simp [firstMatchLabel] at hmatch
  simp only [checkForthcomingPushesInQueue, hev, hcm, hurl, JVal.pyEq, JVal.pyLen,
    JVal.index, List.drop_zero, List.length_cons, List.length_nil]
  rw [scanQueue_spec (pySplit u '/') queue hok, hmatch]
  simp [hlen0]

/-- Witness for c7_duplicate_push_detection at a concrete queue. -/
theorem c7_duplicate_push_detection_witness :
    checkForthcomingPushesInQueue c7WitnessPayload [⟨"queued", c7WitnessQueued⟩]
      = .ok (true, some "h7/o/r/commit/999") :=
  c7_duplicate_push_detection c7WitnessPayload [⟨"queued", c7WitnessQueued⟩]
    (.obj [("url", .str "https://h7/o/r/commit/123")]) "https://h7/o/r/commit/123"
    "h7/o/r/commit/999" rfl rfl rfl
    (by
      intro qj hqj
      rw [List.mem_singleton] at hqj
      subst hqj
      exact ⟨some "h7/o/r/commit/999", rfl⟩)
    rfl

/-- Claim C8: for a source that yields a corrupt archive on every attempt,
the loop makes exactly 4 download attempts, sleeps 5 seconds between
consecutive attempts, and raises the corrupt-archive error carrying the
attempt count 4. -/
theorem c8_corrupt_archive_retry (src : Nat → AttemptOutcome)
    (h : ∀ n, src n = AttemptOutcome.badZipFile) :
    downloadAndUnzipRepo src = ⟨4, [5, 5, 5], .error (.badZip 4)⟩ := by
  simp [downloadAndUnzipRepo, downloadLoop, h, MAX_TRIES, SECONDS_BETWEEN_TRIES]

/-- Witness for c8_corrupt_archive_retry at the constant source. -/
theorem c8_corrupt_archive_retry_witness :
    downloadAndUnzipRepo (fun _ => AttemptOutcome.badZipFile)
      = ⟨4, [5, 5, 5], .error (.badZip 4)⟩ :=
  c8_corrupt_archive_retry (fun _ => AttemptOutcome.badZipFile) (fun _ => rfl)

/-- Claim C9: after extraction, the returned path is the subdirectory named
by the lowercased repository name when it exists; otherwise the single
top-level directory when exactly one exists; otherwise the extraction root
itself.  The selection is a total function, so the naming mismatch never
raises. -/
theorem c9_folder_selection (tmp rn : String) (entries : List (String × Bool)) :
    (entries.any (fun e => e.1 == pyLower rn && e.2) = true →
        selectRepoFolder tmp rn entries = tmp ++ "/" ++ pyLower rn)
    ∧ (entries.any (fun e => e.1 == pyLower rn && e.2) = false →
        ∀ nm : String × Bool, entries.filter (fun e => e.2) = [nm] →
          selectRepoFolder tmp rn entries = tmp ++ "/" ++ nm.1)
    ∧ (entries.any (fun e => e.1 == pyLower rn && e.2) = false →
        (entries.filter (fun e => e.2)).length ≠ 1 →
          selectRepoFolder tmp rn entries = tmp) := by
  unfold selectRepoFolder
  refine ⟨fun h => ?_, fun h nm hf => ?_, fun h hl => ?_⟩
  · simp [h]
  · simp [h, hf]
  · simp only [h, Bool.false_eq_true, if_false]
    rcases hfe : entries.filter (fun e => e.2) with _ | ⟨a, _ | ⟨b, l⟩⟩
    · simp [hfe]
    · rw [hfe] at hl
      simp at hl
    · simp [hfe]

/-- Witness for c9_folder_selection: the three branches at concrete
listings. -/
theorem c9_folder_selection_witness :
    selectRepoFolder "/tmp/x" "MyRepo" [("myrepo", true), ("f.txt", false)]
        = "/tmp/x" ++ "/" ++ pyLower "MyRepo"
    ∧ selectRepoFolder "/tmp/x" "MyRepo" [("other", true), ("f.txt", false)]
        = "/tmp/x" ++ "/" ++ "other"
    ∧ selectRepoFolder "/tmp/x" "MyRepo" [("a", true), ("b", true)] = "/tmp/x" :=
  ⟨(c9_folder_selection "/tmp/x" "MyRepo" [("myrepo", true), ("f.txt", false)]).1 (by decide),
   (c9_folder_selection "/tmp/x" "MyRepo" [("other", true), ("f.txt", false)]).2.1 (by decide)
     ("other", true) (by decide),
   (c9_folder_selection "/tmp/x" "MyRepo" [("a", true), ("b", true)]).2.2 (by decide) (by decide)⟩

/-- Claim C10: when the commit URL does not end in .zip, the derived
download URL is the commit URL with every occurrence of the substring
commit replaced by archive and .zip appended; as a consequence a repository
owner whose name contains the substring commit is rewritten too, and the
derived URL no longer names the original repository path. -/
theorem c10_url_rewrite :
    (∀ url, pyEndsWith url ".zip" = false →
        deriveRepoZipUrl url = pyReplace url "commit" "archive" ++ ".zip")
    ∧ deriveRepoZipUrl "https://git.door43.org/commitowner/repo/commit/abc"
        = "https://git.door43.org/archiveowner/repo/archive/abc.zip"
    ∧ deriveRepoZipUrl "https://git.door43.org/commitowner/repo/commit/abc"
        ≠ "https://git.door43.org/commitowner/repo/archive/abc.zip" :=
  ⟨fun url h => by simp [deriveRepoZipUrl, h], rfl, by decide⟩

/-- Witness for c10_url_rewrite at a concrete non-zip commit URL. -/
theorem c10_url_rewrite_witness :
    deriveRepoZipUrl "https://h/o/r/commit/1"
      = pyReplace "https://h/o/r/commit/1" "commit" "archive" ++ ".zip" :=
  c10_url_rewrite.1 "https://h/o/r/commit/1" rfl

end Door43
